import Mathlib

/-!
Shallow embedding of the HippoCanvas node-based image-generation canvas
(`src/test-model-selection.js` app component, `src/unnamed/part_006` node
component, `src/services/geminiService.ts`, `src/types.ts`) and proofs about
its interaction and prompt-compilation logic.

Numbers that the JavaScript source treats as floating-point (coordinates,
scale factors) are modelled as rationals; machine strings are Lean `String`s;
optional JavaScript fields are `Option`s, with JavaScript truthiness of a
string value (`""` is falsy) made explicit at each use site.
-/

namespace HippoCanvas

/-- Position record from `types.ts` (`x`, `y` world or screen coordinates). -/
@[ext]
structure Position where
  x : ℚ
  y : ℚ
deriving DecidableEq, Repr

/-- Node discriminant from `types.ts` (`'IMAGE_UPLOAD' | 'GENERATE_IMAGE'`). -/
inductive NodeType where
  | IMAGE_UPLOAD
  | GENERATE_IMAGE
deriving DecidableEq, Repr

/-- Annotation record from `types.ts`: integer id and percentage coordinates. -/
structure Annotation where
  id : Nat
  x : ℚ
  y : ℚ
deriving DecidableEq, Repr

/-- Layer record from `types.ts`. -/
structure Layer where
  id : String
  name : String
  prompt : String
  isEnabled : Bool
deriving DecidableEq, Repr

/-- Generation status from `types.ts` (`'idle' | 'loading' | 'success' | 'error'`). -/
inductive GenStatus where
  | idle
  | loading
  | success
  | error
deriving DecidableEq, Repr

/-- NodeData record from `types.ts`; optional fields are `Option`s. -/
structure NodeData where
  title : String := ""
  displayId : Nat := 0
  imageUrl : Option String := none
  annotations : Option (List Annotation) := none
  layers : Option (List Layer) := none
  prompt : Option String := none
  generatedImage : Option String := none
  generatedImages : Option (List String) := none
  selectedImageIndex : Option Nat := none
  status : Option GenStatus := none
  model : Option String := none
  aspectRatio : Option String := none
  imageResolution : Option String := none
  numberOfImages : Option Nat := none
deriving DecidableEq, Repr

/-- Node record from `types.ts`. -/
structure Node where
  id : String
  type : NodeType
  position : Position
  data : NodeData
  width : ℚ
  height : ℚ
deriving DecidableEq, Repr

/-- Connection record from `types.ts`. -/
structure Connection where
  id : String
  sourceId : String
  targetId : String
deriving DecidableEq, Repr

/-- Canvas-level state of the app component: node list, connection list,
scale factor and pan offset (the `nodes`, `connections`, `scale`, `offset`
React states of `AppContent`). -/
structure CanvasState where
  nodes : List Node
  connections : List Connection
  scale : ℚ
  offset : Position
deriving DecidableEq, Repr

/-! ### Geometry (screenToWorld and the rendering transform) -/

/-- Function `screenToWorld` from the app component:
`((screenX - rect.left - offset.x) / scale, (screenY - rect.top - offset.y) / scale)`. -/
def screenToWorld (rectLeft rectTop : ℚ) (offset : Position) (scale : ℚ)
    (screenX screenY : ℚ) : Position :=
  ⟨(screenX - rectLeft - offset.x) / scale, (screenY - rectTop - offset.y) / scale⟩

/-- Rendering transform of the canvas content layer
(`transform: translate(offset.x, offset.y) scale(scale)` inside the container
whose top-left corner is at `(rect.left, rect.top)` on screen): a world point
`p` is shown at screen point `p * scale + offset + rectOrigin`. -/
def worldToScreen (rectLeft rectTop : ℚ) (offset : Position) (scale : ℚ)
    (p : Position) : Position :=
  ⟨p.x * scale + offset.x + rectLeft, p.y * scale + offset.y + rectTop⟩

/-- C7: for every world point, pan offset, canvas origin and scale in
[0.1, 3.0], `screenToWorld` applied to the rendered screen point
`p * scale + panOffset + canvasOrigin` returns `p` exactly (over ℚ). -/
theorem screenToWorld_inverts_render (rectLeft rectTop : ℚ) (offset : Position)
    (scale : ℚ) (p : Position) (hlo : 1 / 10 ≤ scale) (hhi : scale ≤ 3) :
    screenToWorld rectLeft rectTop offset scale
      (worldToScreen rectLeft rectTop offset scale p).x
      (worldToScreen rectLeft rectTop offset scale p).y = p := by
  have hne : scale ≠ 0 := by
    intro h
    rw [h] at hlo
    norm_num at hlo
  simp only [screenToWorld, worldToScreen]
  ext
  · field_simp
  · field_simp

/-- Witness for C7 at a concrete input: origin (5, 7), pan (3, 4), scale 2,
world point (10, 20). -/
theorem screenToWorld_inverts_render_witness :
    (1 : ℚ) / 10 ≤ 2 ∧ (2 : ℚ) ≤ 3 ∧
      screenToWorld 5 7 ⟨3, 4⟩ 2
        (worldToScreen 5 7 ⟨3, 4⟩ 2 ⟨10, 20⟩).x
        (worldToScreen 5 7 ⟨3, 4⟩ 2 ⟨10, 20⟩).y = ⟨10, 20⟩ :=
  ⟨by norm_num, by norm_num,
    screenToWorld_inverts_render 5 7 ⟨3, 4⟩ 2 ⟨10, 20⟩ (by norm_num) (by norm_num)⟩

/-! ### Node dragging (handleMouseMove, NODE mode) -/

/-- NODE-mode branch of `handleMouseMove`: with recorded mouse start
`startPos`, recorded node start position `nodeStartPos` and dragged node id
`draggedNodeId`, the dragged node's position becomes
`nodeStartPos + (client - startPos) / scale`; nothing else changes. -/
def dragNodeMove (st : CanvasState) (draggedNodeId : String)
    (startPos nodeStartPos : Position) (clientX clientY : ℚ) : CanvasState :=
  let dx := (clientX - startPos.x) / st.scale
  let dy := (clientY - startPos.y) / st.scale
  { st with
    nodes := st.nodes.map fun n =>
      if n.id = draggedNodeId then
        { n with position := ⟨nodeStartPos.x + dx, nodeStartPos.y + dy⟩ }
      else n }

/-- C8: dragging a node from screen point `s0` to `s1` at scale `k` sets the
dragged node's world position to exactly `p0 + (s1 - s0) / k` componentwise,
for every pan offset (the offset is arbitrary in the state and is untouched). -/
theorem dragNodeMove_position (st : CanvasState) (draggedNodeId : String)
    (s0 p0 : Position) (cx cy : ℚ) :
    (∀ n ∈ (dragNodeMove st draggedNodeId s0 p0 cx cy).nodes,
        n.id = draggedNodeId →
          n.position = ⟨p0.x + (cx - s0.x) / st.scale, p0.y + (cy - s0.y) / st.scale⟩) ∧
      (dragNodeMove st draggedNodeId s0 p0 cx cy).offset = st.offset := by
  constructor
  · intro n hn hid
    simp only [dragNodeMove, List.mem_map] at hn
    obtain ⟨m, _, hm⟩ := hn
    by_cases h : m.id = draggedNodeId
    · rw [if_pos h] at hm
      rw [← hm]
    · rw [if_neg h] at hm
      rw [← hm] at hid
      exact absurd hid h
  · rfl

/-- Witness for C8: a one-node state at scale 2 with pan (50, 60); dragging
node "a" from screen (0, 0) to (10, 4) from node start (100, 200) puts it at
(105, 202). -/
theorem dragNodeMove_position_witness :
    ∃ n ∈ (dragNodeMove
        ⟨[⟨"a", .IMAGE_UPLOAD, ⟨100, 200⟩, {}, 288, 200⟩], [], 2, ⟨50, 60⟩⟩
        "a" ⟨0, 0⟩ ⟨100, 200⟩ 10 4).nodes,
      n.id = "a" ∧ n.position = ⟨105, 202⟩ := by
  refine ⟨_, List.mem_map_of_mem _ (List.mem_singleton_self _), rfl, ?_⟩
  have h := (dragNodeMove_position
      ⟨[⟨"a", .IMAGE_UPLOAD, ⟨100, 200⟩, {}, 288, 200⟩], [], 2, ⟨50, 60⟩⟩
      "a" ⟨0, 0⟩ ⟨100, 200⟩ 10 4).1
  have hmem := h _ (List.mem_map_of_mem _ (List.mem_singleton_self _)) rfl
  rw [hmem]
  ext <;> norm_num

/-! ### Wheel zoom (handleWheel) -/

/-- Handler `handleWheel`: `newScale = min(max(scale - deltaY * 0.001, 0.1), 3)`;
only the scale state is set. -/
def handleWheel (st : CanvasState) (deltaY : ℚ) : CanvasState :=
  { st with scale := min (max (st.scale - deltaY * (1 / 1000)) (1 / 10)) 3 }

/-- C10: wheel zoom changes only the scale (clamped into [0.1, 3.0]); offset,
nodes and connections are untouched; and zoom is not cursor-anchored — at a
concrete state (scale 1, zero pan, cursor at screen (100, 100), wheel delta
-100) the world point under the cursor changes. -/
theorem handleWheel_only_scales (st : CanvasState) (deltaY : ℚ) :
    (handleWheel st deltaY).offset = st.offset ∧
      (handleWheel st deltaY).nodes = st.nodes ∧
      (handleWheel st deltaY).connections = st.connections ∧
      (handleWheel st deltaY).scale = min (max (st.scale - deltaY * (1 / 1000)) (1 / 10)) 3 ∧
      1 / 10 ≤ (handleWheel st deltaY).scale ∧ (handleWheel st deltaY).scale ≤ 3 ∧
      screenToWorld 0 0 ⟨0, 0⟩ (handleWheel ⟨[], [], 1, ⟨0, 0⟩⟩ (-100)).scale 100 100 ≠
        screenToWorld 0 0 ⟨0, 0⟩ 1 100 100 := by
  refine ⟨rfl, rfl, rfl, rfl, ?_, ?_, ?_⟩
  · exact le_min (le_max_right _ _) (by norm_num)
  · exact min_le_right _ _
  · intro h
    have hx := congrArg Position.x h
    simp only [handleWheel, screenToWorld] at hx
    norm_num at hx

/-! ### Annotation id allocation (NodeComponent, handleImageClick / handleClearAnnotations) -/

/-- Id allocated by `handleImageClick` for a new annotation:
`currentAnnotations.length > 0 ? Math.max(...currentAnnotations.map(a => a.id)) + 1 : 1`. -/
def nextAnnotationId (anns : List Annotation) : Nat :=
  if anns.length > 0 then (anns.map (·.id)).foldl max 0 + 1 else 1

/-- Adding an annotation in `handleImageClick`:
`annotations := [...currentAnnotations, { id: newId, x, y }]`. -/
def addAnnotationClick (anns : List Annotation) (x y : ℚ) : List Annotation :=
  anns ++ [⟨nextAnnotationId anns, x, y⟩]

/-- Handler `handleClearAnnotations`: `annotations := []`. -/
def clearAnnotations (_anns : List Annotation) : List Annotation := []

/-- Annotation operations a user can perform on an IMAGE_SOURCE node: an
annotating click at percentage coordinates, or the clear-all action (the node
component offers no single-annotation delete). -/
inductive AnnOp where
  | click (x y : ℚ)
  | clear
deriving DecidableEq, Repr

/-- Annotation state of one node together with the ghost history of every id
ever assigned in that node (for stating the no-reuse claim). -/
structure AnnState where
  annotations : List Annotation
  everAssigned : List Nat
deriving DecidableEq, Repr

/-- One annotation operation on a node's state, recording assigned ids. -/
def annStep (s : AnnState) : AnnOp → AnnState
  | .click x y =>
      ⟨addAnnotationClick s.annotations x y,
        s.everAssigned ++ [nextAnnotationId s.annotations]⟩
  | .clear => ⟨clearAnnotations s.annotations, s.everAssigned⟩

/-- Run a sequence of annotation operations from the empty initial state. -/
def annRun (ops : List AnnOp) : AnnState :=
  ops.foldl annStep ⟨[], []⟩

/-- C3 counterexample: after add (id 1) then clear-all, the next added
annotation again receives id 1 — an id previously assigned in the node — so
ids are reused after deletion. -/
theorem annotationId_reused_after_clear :
    nextAnnotationId (annRun [.click 10 10, .clear]).annotations = 1 ∧
      1 ∈ (annRun [.click 10 10, .clear]).everAssigned ∧
      ¬ 1 < nextAnnotationId (annRun [.click 10 10, .clear]).annotations := by
  refine ⟨rfl, ?_, by decide⟩
  decide

/-- Helper: the start value of a `foldl max` bounds the result from below. -/
theorem start_le_foldl_max (l : List Nat) : ∀ i : Nat, i ≤ l.foldl max i := by
  induction l with
  | nil => intro i; exact le_refl i
  | cons b t ih => intro i; exact le_trans (le_max_left i b) (ih (max i b))

/-- Helper: every member of a list is at most its `foldl max` over any start. -/
theorem le_foldl_max (l : List Nat) (init : Nat) :
    ∀ x ∈ l, x ≤ l.foldl max init := by
  induction l generalizing init with
  | nil => intro x hx; cases hx
  | cons a t ih =>
      intro x hx
      rcases List.mem_cons.mp hx with h | h
      · subst h
        exact le_trans (le_max_right init x) (start_le_foldl_max t _)
      · exact ih (max init a) x h

/-- C3 amended: every newly added annotation receives an id strictly greater
than every id currently present in the node (max of current ids + 1, or 1 when
none) — ids are never reused while the annotation list is not cleared; after
the clear-all action, numbering restarts at 1. -/
theorem nextAnnotationId_gt_current (anns : List Annotation) :
    ∀ a ∈ anns, a.id < nextAnnotationId anns := by
  intro a ha
  have hlen : anns.length > 0 := List.length_pos_of_mem ha
  simp only [nextAnnotationId, if_pos hlen]
  have hmem : a.id ∈ anns.map (·.id) := List.mem_map_of_mem _ ha
  exact Nat.lt_succ_of_le (le_foldl_max _ 0 _ hmem)

/-- Witness for the amended C3 at the spec's scenario: a node holding
annotations with ids 1 and 3 (ids 1, 2, 3 were assigned, id 2 removed) —
the next allocated id is 4 and exceeds the present id 3. -/
theorem nextAnnotationId_gt_current_witness :
    nextAnnotationId [⟨1, 0, 0⟩, ⟨3, 10, 10⟩] = 4 ∧
      (⟨3, 10, 10⟩ : Annotation) ∈ [⟨1, 0, 0⟩, (⟨3, 10, 10⟩ : Annotation)] ∧
      (3 : Nat) < nextAnnotationId [⟨1, 0, 0⟩, ⟨3, 10, 10⟩] :=
  ⟨rfl, by decide,
    nextAnnotationId_gt_current [⟨1, 0, 0⟩, ⟨3, 10, 10⟩] ⟨3, 10, 10⟩ (by decide)⟩

/-! ### Prompt compilation (handleTriggerGeneration, layer phase) -/

/-- JavaScript truthiness of an optional string field: `undefined` and `""`
are falsy. -/
def optTruthy : Option String → Bool
  | none => false
  | some s => s != ""

/-- JavaScript `String.prototype.trim`: strip leading and trailing whitespace
characters (modelled over the string's character list). -/
def jsTrim (s : String) : String :=
  String.mk (((s.data.dropWhile Char.isWhitespace).reverse.dropWhile Char.isWhitespace).reverse)

/-- Active layers in `handleTriggerGeneration`:
`layers.filter(l => l.isEnabled && l.prompt.trim() !== '')`. -/
def activeLayersOf (layers : List Layer) : List Layer :=
  layers.filter fun l => l.isEnabled && (jsTrim l.prompt != "")

/-- Prompt phase of `handleTriggerGeneration` for a generator node: with
`layers = targetNode.data.layers || []`, compute the active layers; return
without triggering (`none`) when there is no active layer and the legacy
`data.prompt` is falsy; otherwise the compiled prompt is the newline join of
the active layers' prompts, or `targetNode.data.prompt || ''` as fallback. -/
def compilePromptPhase (layers : Option (List Layer)) (legacy : Option String) :
    Option String :=
  let ls := layers.getD []
  let active := activeLayersOf ls
  if active.length = 0 && !(optTruthy legacy) then none
  else if active.length > 0 then
    some (String.intercalate "\n" (active.map (·.prompt)))
  else some (legacy.getD "")

/-- Compilation as the claim literally words it: join exactly the enabled
layers whose prompt text is non-empty (as a string); fall back to the legacy
prompt when none qualify; `none` when that is also absent or empty. -/
def compiledPromptClaim (layers : Option (List Layer)) (legacy : Option String) :
    Option String :=
  let qualifying := (layers.getD []).filter fun l => l.isEnabled && (l.prompt != "")
  if qualifying.isEmpty then
    match legacy with
    | none => none
    | some s => if s = "" then none else some s
  else some (String.intercalate "\n" (qualifying.map (·.prompt)))

/-- Compilation as amended: a layer qualifies when it is enabled and its
prompt text is non-blank (non-empty after trimming whitespace); the joined
texts are the original, untrimmed prompts. -/
def compiledPromptAmended (layers : Option (List Layer)) (legacy : Option String) :
    Option String :=
  let qualifying := (layers.getD []).filter fun l => l.isEnabled && (jsTrim l.prompt != "")
  if qualifying.isEmpty then
    match legacy with
    | none => none
    | some s => if s = "" then none else some s
  else some (String.intercalate "\n" (qualifying.map (·.prompt)))

/-- C5 counterexample: an enabled layer whose prompt is the single space " "
is non-empty as a string, so the claim's join would be " \nB", but the code
filters on trimmed text and compiles just "B". -/
theorem compilePrompt_trim_counterexample :
    compilePromptPhase
        (some [⟨"1", "L1", " ", true⟩, ⟨"2", "L2", "B", true⟩]) none = some "B" ∧
      compiledPromptClaim
        (some [⟨"1", "L1", " ", true⟩, ⟨"2", "L2", "B", true⟩]) none = some " \nB" ∧
      compilePromptPhase
          (some [⟨"1", "L1", " ", true⟩, ⟨"2", "L2", "B", true⟩]) none ≠
        compiledPromptClaim
          (some [⟨"1", "L1", " ", true⟩, ⟨"2", "L2", "B", true⟩]) none := by
  refine ⟨?_, ?_, ?_⟩ <;> decide

/-- C5 amended: the compiled prompt is the newline join, in list order, of
exactly the enabled layers with non-blank prompt text (blank meaning empty
after trimming whitespace; the joined text is the untrimmed original); when no
layer qualifies the legacy prompt is used, and when that is also absent or
empty the generation is not triggered. -/
theorem compilePromptPhase_eq_amended (layers : Option (List Layer))
    (legacy : Option String) :
    compilePromptPhase layers legacy = compiledPromptAmended layers legacy := by
  simp only [compilePromptPhase, compiledPromptAmended, activeLayersOf]
  set q := (layers.getD []).filter
    (fun l => l.isEnabled && (jsTrim l.prompt != "")) with hq
  by_cases hqe : q.isEmpty
  · have hlen : q.length = 0 := List.isEmpty_iff_length_eq_zero.mp hqe
    simp only [hlen, hqe]
    cases legacy with
    | none => simp [optTruthy]
    | some s =>
        by_cases hs : s = ""
        · simp [optTruthy, hs]
        · simp [optTruthy, hs, Option.getD]
  · have hlen : q.length ≠ 0 := by
      intro h
      exact hqe (List.isEmpty_iff_length_eq_zero.mpr h)
    have hpos : q.length > 0 := Nat.pos_of_ne_zero hlen
    simp [hlen, hqe, hpos]

/-! ### Selecting a generated image (NodeComponent, handleSelectGeneratedImage) -/

/-- Handler `handleSelectGeneratedImage`: return unchanged when
`!node.data.generatedImages || !node.data.generatedImages[index]` (the element
is `undefined` — index out of range — or the falsy empty string); otherwise
set `selectedImageIndex := index` and `generatedImage := generatedImages[index]`. -/
def handleSelectGeneratedImage (nd : NodeData) (index : Nat) : NodeData :=
  match nd.generatedImages with
  | none => nd
  | some imgs =>
      match imgs[index]? with
      | none => nd
      | some img =>
          if img = "" then nd
          else { nd with selectedImageIndex := some index, generatedImage := some img }

/-- Success path of `handleTriggerGeneration`: store all result images, set
`generatedImage` to the first (`resultImages[0]`), `selectedImageIndex` to 0
and status to success. -/
def applyGenSuccess (nd : NodeData) (imgs : List String) : NodeData :=
  { nd with
    status := some .success
    generatedImages := some imgs
    generatedImage := imgs.head?
    selectedImageIndex := some 0 }

/-- Invariant of C9: `generatedImage` equals the entry of `generatedImages` at
`selectedImageIndex` (with absent lists read as empty and an absent index read
as 0, matching how the renderer defaults the index). -/
def selectedImageInv (nd : NodeData) : Prop :=
  nd.generatedImage = (nd.generatedImages.getD [])[nd.selectedImageIndex.getD 0]?

/-- C9 counterexample: with `generatedImages = ["", "b"]` there is an element
at index 0, yet selecting index 0 is a no-op because the empty string is falsy
in the code's guard — the claim says the node would be updated. -/
theorem selectGeneratedImage_empty_string_counterexample :
    handleSelectGeneratedImage
        { generatedImages := some ["", "b"], generatedImage := some "b",
          selectedImageIndex := some 1 } 0 =
      { generatedImages := some ["", "b"], generatedImage := some "b",
        selectedImageIndex := some 1 } ∧
      (["", "b"] : List String)[0]? = some "" ∧
      ({ generatedImages := some ["", "b"], generatedImage := some "b",
          selectedImageIndex := some 1 } : NodeData).selectedImageIndex ≠ some 0 := by
  refine ⟨rfl, rfl, by decide⟩

/-- C9 amended: selecting index i is a no-op when `generatedImages` is absent,
has no element at i, or the element at i is the empty string; otherwise it
sets `selectedImageIndex := i` and `generatedImage` to that element; the
selected-image invariant is preserved by selection and established by the
success path of generation (which sets index 0 and the first image). -/
theorem selectGeneratedImage_spec (nd : NodeData) (i : Nat) :
    (nd.generatedImages = none → handleSelectGeneratedImage nd i = nd) ∧
      (∀ imgs, nd.generatedImages = some imgs → imgs[i]? = none →
        handleSelectGeneratedImage nd i = nd) ∧
      (∀ imgs, nd.generatedImages = some imgs → imgs[i]? = some "" →
        handleSelectGeneratedImage nd i = nd) ∧
      (∀ imgs img, nd.generatedImages = some imgs → imgs[i]? = some img →
        img ≠ "" →
          (handleSelectGeneratedImage nd i).selectedImageIndex = some i ∧
            (handleSelectGeneratedImage nd i).generatedImage = some img) ∧
      (selectedImageInv nd → selectedImageInv (handleSelectGeneratedImage nd i)) ∧
      (∀ imgs, selectedImageInv (applyGenSuccess nd imgs)) := by
  refine ⟨?_, ?_, ?_, ?_, ?_, ?_⟩
  · intro h
    simp [handleSelectGeneratedImage, h]
  · intro imgs h hget
    simp [handleSelectGeneratedImage, h, hget]
  · intro imgs h hget
    simp [handleSelectGeneratedImage, h, hget]
  · intro imgs img h hget hne
    simp [handleSelectGeneratedImage, h, hget, hne]
  · intro hinv
    rcases hg : nd.generatedImages with _ | imgs
    · simpa [handleSelectGeneratedImage, hg] using hinv
    · rcases hget : imgs[i]? with _ | img
      · simpa [handleSelectGeneratedImage, hg, hget] using hinv
      · by_cases hne : img = ""
        · simpa [handleSelectGeneratedImage, hg, hget, hne] using hinv
        · simp [handleSelectGeneratedImage, selectedImageInv, hg, hget, hne]
  · intro imgs
    simp [selectedImageInv, applyGenSuccess, List.head?_eq_getElem?]

/-- Witness for the amended C9: selecting index 1 of ["a", "b"] sets the index
and the image, and the success path with results ["x", "y"] establishes the
invariant. -/
theorem selectGeneratedImage_spec_witness :
    ((handleSelectGeneratedImage { generatedImages := some ["a", "b"] } 1).selectedImageIndex =
        some 1 ∧
      (handleSelectGeneratedImage { generatedImages := some ["a", "b"] } 1).generatedImage =
        some "b") ∧
      selectedImageInv (applyGenSuccess { generatedImages := some ["a", "b"] } ["x", "y"]) :=
  ⟨(selectGeneratedImage_spec { generatedImages := some ["a", "b"] } 1).2.2.2.1
      ["a", "b"] "b" rfl rfl (by decide),
    (selectGeneratedImage_spec { generatedImages := some ["a", "b"] } 0).2.2.2.2.2 ["x", "y"]⟩

/-! ### Generation orchestration (handleTriggerGeneration status/result updates,
geminiService batch join) -/

/-- Update applied when generation is triggered (before the network call):
`status: 'loading', generatedImage: undefined, generatedImages: undefined`. -/
def triggerStart (nd : NodeData) : NodeData :=
  { nd with status := some .loading, generatedImage := none, generatedImages := none }

/-- Update applied in the catch branch of `handleTriggerGeneration`:
`status: 'error'` only. -/
def applyGenError (nd : NodeData) : NodeData :=
  { nd with status := some .error }

/-- Model of the `Promise.all` join used by `generateImageWithGemini`: the batch result is
the list of all per-call results when every call succeeds, and a rejection
when any call fails (the rejecting call's error; completion order is
immaterial for the all-or-nothing property). -/
def joinAll {α : Type} : List (Except String α) → Except String (List α)
  | [] => .ok []
  | .error e :: _ => .error e
  | .ok a :: rest =>
      match joinAll rest with
      | .error e => .error e
      | .ok as => .ok (a :: as)

/-- Helper: a batch containing any failed call joins to a rejection. -/
theorem joinAll_error_of_mem {α : Type} (outcomes : List (Except String α))
    (e : String) (hmem : Except.error e ∈ outcomes) :
    ∃ msg, joinAll outcomes = Except.error msg := by
  induction outcomes with
  | nil => cases hmem
  | cons o rest ih =>
      cases o with
      | error e₀ => exact ⟨e₀, rfl⟩
      | ok a =>
          rcases List.mem_cons.mp hmem with h | h
          · cases h
          · obtain ⟨msg, hmsg⟩ := ih h
            exact ⟨msg, by simp [joinAll, hmsg]⟩

/-- Node-state outcome of one whole generation trigger whose N parallel calls
finished with the given per-call outcomes: the `Promise.all` join feeds either
the success update or the catch branch. -/
def finishGeneration (nd : NodeData) (outcomes : List (Except String String)) :
    NodeData :=
  match joinAll outcomes with
  | .ok imgs => applyGenSuccess nd imgs
  | .error _ => applyGenError nd

/-- C4: if any one of the parallel generation calls fails, the trigger as a
whole fails: status becomes error, no result images are retained (they were
cleared when the trigger started and the catch branch stores none), and the
generation configuration (model, aspect ratio, resolution, requested count)
and the layers are unchanged. -/
theorem batch_failure_all_or_nothing (nd : NodeData)
    (outcomes : List (Except String String)) (e : String)
    (hmem : Except.error e ∈ outcomes) :
    (finishGeneration (triggerStart nd) outcomes).status = some .error ∧
      (finishGeneration (triggerStart nd) outcomes).generatedImages = none ∧
      (finishGeneration (triggerStart nd) outcomes).generatedImage = none ∧
      (finishGeneration (triggerStart nd) outcomes).model = nd.model ∧
      (finishGeneration (triggerStart nd) outcomes).aspectRatio = nd.aspectRatio ∧
      (finishGeneration (triggerStart nd) outcomes).imageResolution = nd.imageResolution ∧
      (finishGeneration (triggerStart nd) outcomes).numberOfImages = nd.numberOfImages ∧
      (finishGeneration (triggerStart nd) outcomes).layers = nd.layers := by
  obtain ⟨msg, hmsg⟩ := joinAll_error_of_mem outcomes e hmem
  simp [finishGeneration, hmsg, applyGenError, triggerStart]

/-- Witness for C4: a batch of two calls where the second fails, on a node
with concrete configuration and layers. -/
theorem batch_failure_all_or_nothing_witness :
    Except.error "boom" ∈ [Except.ok "img1", Except.error "boom"] ∧
      (finishGeneration
          (triggerStart
            { model := some "gemini-2.5-flash-image-preview",
              aspectRatio := some "1:1", imageResolution := some "1K",
              numberOfImages := some 2,
              layers := some [⟨"1", "基础图层", "a cat", true⟩] })
          [Except.ok "img1", Except.error "boom"]).status = some .error ∧
      (finishGeneration
          (triggerStart
            { model := some "gemini-2.5-flash-image-preview",
              aspectRatio := some "1:1", imageResolution := some "1K",
              numberOfImages := some 2,
              layers := some [⟨"1", "基础图层", "a cat", true⟩] })
          [Except.ok "img1", Except.error "boom"]).generatedImages = none :=
  ⟨by simp,
    (batch_failure_all_or_nothing _ [Except.ok "img1", Except.error "boom"]
        "boom" (by simp)).1,
    (batch_failure_all_or_nothing
        { model := some "gemini-2.5-flash-image-preview",
          aspectRatio := some "1:1", imageResolution := some "1K",
          numberOfImages := some 2,
          layers := some [⟨"1", "基础图层", "a cat", true⟩] }
        [Except.ok "img1", Except.error "boom"] "boom" (by simp)).2.1⟩

/-! ### Stale responses across overlapping triggers (C2) -/

/-- Observable events at one generator node, in the order the event loop
processes them: a generation trigger, or the arrival of some earlier call's
network outcome. `handleTriggerGeneration` applies a success or error update
unconditionally when a response arrives — it carries no request identifier. -/
inductive GenEvent where
  | trigger
  | respond (outcome : Except String (List String))

/-- Node-data update performed by the code for each event. -/
def genStep (nd : NodeData) : GenEvent → NodeData
  | .trigger => triggerStart nd
  | .respond (.ok imgs) => applyGenSuccess nd imgs
  | .respond (.error _) => applyGenError nd

/-- Process a sequence of events on one node. -/
def genRun (nd : NodeData) (events : List GenEvent) : NodeData :=
  events.foldl genStep nd

/-- C2 evaluation at the failing interleaving: trigger twice, then the second
(later-initiated) call's response `["b"]` arrives, then the first call's
response `["a"]` arrives late — the final state holds the stale first call's
images, not the later call's, because no per-request identifier guards the
update. -/
theorem stale_response_overwrites :
    (genRun {} [.trigger, .trigger, .respond (.ok ["b"]), .respond (.ok ["a"])]).generatedImages =
        some ["a"] ∧
      (genRun {} [.trigger, .trigger, .respond (.ok ["b"]), .respond (.ok ["a"])]).status =
        some .success ∧
      some (["a"] : List String) ≠ some ["b"] := by
  refine ⟨rfl, rfl, by decide⟩

/-! ### Dependency resolution: source-node ordering (C6) -/

/-- Comparator used by `sourceNodes.sort((a, b) => a.data.displayId - b.data.displayId)`. -/
def nodeDisplayLe (a b : Node) : Prop :=
  a.data.displayId ≤ b.data.displayId

instance : DecidableRel nodeDisplayLe := fun a b =>
  inferInstanceAs (Decidable (a.data.displayId ≤ b.data.displayId))

instance : IsTotal Node nodeDisplayLe :=
  ⟨fun a b => Nat.le_total a.data.displayId b.data.displayId⟩

instance : IsTrans Node nodeDisplayLe :=
  ⟨fun _ _ _ hab hbc => Nat.le_trans hab hbc⟩

/-- Dependency resolution in `handleTriggerGeneration`: filter the connection
list for connections into the target node, look each connection's source node
up in the node list (dropping dangling ids), and sort the result by ascending
`displayId` (JavaScript `Array.prototype.sort` is a stable sort; modelled as a
stable insertion sort with the same comparator). -/
def resolveSourceNodes (connections : List Connection) (nodes : List Node)
    (nodeId : String) : List Node :=
  let incoming := connections.filter fun c => c.targetId == nodeId
  let srcs := incoming.filterMap fun conn => nodes.find? fun n => n.id == conn.sourceId
  List.insertionSort nodeDisplayLe srcs

/-- Helper: a strict displayId comparison is vacuously antisymmetric. -/
instance : IsAntisymm Node (fun a b => a.data.displayId < b.data.displayId) :=
  ⟨fun _ _ h h' => absurd h' (Nat.lt_asymm h)⟩

/-- Helper: two permuted lists sorted under `nodeDisplayLe` whose displayIds
are pairwise distinct are equal. -/
theorem sorted_perm_nodup_eq (l₁ l₂ : List Node)
    (hperm : l₁.Perm l₂)
    (hs₁ : List.Sorted nodeDisplayLe l₁) (hs₂ : List.Sorted nodeDisplayLe l₂)
    (hnodup : (l₁.map fun n => n.data.displayId).Nodup) :
    l₁ = l₂ := by
  have hnodup₂ : (l₂.map fun n => n.data.displayId).Nodup :=
    (hperm.map fun n => n.data.displayId).nodup_iff.mp hnodup
  have hstrict : ∀ (l : List Node), List.Sorted nodeDisplayLe l →
      (l.map fun n => n.data.displayId).Nodup →
      List.Sorted (fun a b : Node => a.data.displayId < b.data.displayId) l := by
    intro l hs hn
    have hne : l.Pairwise fun a b : Node => a.data.displayId ≠ b.data.displayId :=
      List.pairwise_map.mp hn
    exact (hs.and hne).imp fun h => Nat.lt_of_le_of_ne h.1 h.2
  exact List.eq_of_perm_of_sorted hperm (hstrict l₁ hs₁ hnodup) (hstrict l₂ hs₂ hnodup₂)

/-- C6: the resolved source-node list is sorted by ascending displayId, and —
when the displayIds of the resolved nodes are pairwise distinct, as the app's
monotonically increasing node counter guarantees — it is the same list for any
creation order of the connections (any permutation of the connection list). -/
theorem resolveSourceNodes_sorted_and_order_independent
    (connections connections' : List Connection) (nodes : List Node)
    (nodeId : String) :
    List.Sorted nodeDisplayLe (resolveSourceNodes connections nodes nodeId) ∧
      (connections'.Perm connections →
        ((resolveSourceNodes connections nodes nodeId).map fun n =>
            n.data.displayId).Nodup →
        resolveSourceNodes connections' nodes nodeId =
          resolveSourceNodes connections nodes nodeId) := by
  constructor
  · exact List.sorted_insertionSort nodeDisplayLe _
  · intro hperm hnodup
    have hfil : (connections'.filter fun c => c.targetId == nodeId).Perm
        (connections.filter fun c => c.targetId == nodeId) :=
      hperm.filter _
    have hsrc : ((connections'.filter fun c => c.targetId == nodeId).filterMap
          fun conn => nodes.find? fun n => n.id == conn.sourceId).Perm
        ((connections.filter fun c => c.targetId == nodeId).filterMap
          fun conn => nodes.find? fun n => n.id == conn.sourceId) :=
      hfil.filterMap _
    have hperm' : (resolveSourceNodes connections' nodes nodeId).Perm
        (resolveSourceNodes connections nodes nodeId) := by
      unfold resolveSourceNodes
      exact ((List.perm_insertionSort nodeDisplayLe _).trans hsrc).trans
        (List.perm_insertionSort nodeDisplayLe _).symm
    exact sorted_perm_nodup_eq _ _ hperm'
      (List.sorted_insertionSort nodeDisplayLe _)
      (List.sorted_insertionSort nodeDisplayLe _)
      ((hperm'.map fun n => n.data.displayId).nodup_iff.mpr hnodup)

/-- Sample node list for the C6 witness: upload nodes "a" (displayId 2) and
"b" (displayId 1), generator "g" (displayId 3). -/
def sampleNodes : List Node :=
  [⟨"a", .IMAGE_UPLOAD, ⟨0, 0⟩, { displayId := 2, imageUrl := some "imgA" }, 288, 200⟩,
   ⟨"b", .IMAGE_UPLOAD, ⟨0, 0⟩, { displayId := 1, imageUrl := some "imgB" }, 288, 200⟩,
   ⟨"g", .GENERATE_IMAGE, ⟨0, 0⟩, { displayId := 3 }, 420, 200⟩]

/-- Witness for C6: connecting "a" then "b" or "b" then "a" to generator "g"
resolves to the same list, sorted by ascending displayId. -/
theorem resolveSourceNodes_order_independent_witness :
    ([⟨"c2", "b", "g"⟩, ⟨"c1", "a", "g"⟩] : List Connection).Perm
        [⟨"c1", "a", "g"⟩, ⟨"c2", "b", "g"⟩] ∧
      ((resolveSourceNodes [⟨"c1", "a", "g"⟩, ⟨"c2", "b", "g"⟩] sampleNodes "g").map
          fun n => n.data.displayId).Nodup ∧
      resolveSourceNodes [⟨"c2", "b", "g"⟩, ⟨"c1", "a", "g"⟩] sampleNodes "g" =
        resolveSourceNodes [⟨"c1", "a", "g"⟩, ⟨"c2", "b", "g"⟩] sampleNodes "g" :=
  ⟨by decide, by decide,
    (resolveSourceNodes_sorted_and_order_independent
        [⟨"c1", "a", "g"⟩, ⟨"c2", "b", "g"⟩]
        [⟨"c2", "b", "g"⟩, ⟨"c1", "a", "g"⟩] sampleNodes "g").2
      (by decide) (by decide)⟩

/-! ### Reference images and correspondence notes (C1) -/

/-- Image carried by a resolved source node, per the dispatch in
`handleTriggerGeneration`: an IMAGE_UPLOAD node with a truthy `imageUrl`
contributes it; a GENERATE_IMAGE node with a truthy `generatedImage` (the
currently selected one) contributes it; otherwise the node contributes
nothing. -/
def sourceImageData (n : Node) : Option String :=
  match n.type with
  | .IMAGE_UPLOAD => if optTruthy n.data.imageUrl then n.data.imageUrl else none
  | .GENERATE_IMAGE =>
      if optTruthy n.data.generatedImage then n.data.generatedImage else none

/-- One correspondence note pushed onto `idMappingDescription`, kept
structured: the position N stated by the "第 N 张图片" text, the referenced
node's displayId, and whether the baked-marker caveat is included. -/
structure RefNote where
  statedPos : Nat
  displayId : Nat
  marked : Bool
deriving DecidableEq, Repr

/-- Render a structured note to the exact string the code pushes. -/
def renderNote (note : RefNote) : String :=
  if note.marked then
    "第 " ++ toString note.statedPos ++ " 张图片对应 [图" ++
      toString note.displayId ++ "] (图片上带有红色数字标记)"
  else
    "第 " ++ toString note.statedPos ++ " 张图片对应 [图" ++ toString note.displayId ++ "]"

/-- Reference-collection loop of `handleTriggerGeneration`
(`for (let i = 0; i < sourceNodes.length; i++)`): for the node at loop index
i, resolve its image; when present, bake annotations onto it when the node
has any (`bake` abstracts the canvas rasterizer) and push the image onto
`referenceImages` while pushing a note stating position `i + 1`; nodes
without an image push nothing. -/
def buildReferencesAux (bake : String → List Annotation → String) :
    Nat → List Node → List String × List RefNote
  | _, [] => ([], [])
  | i, n :: rest =>
      let (restRefs, restNotes) := buildReferencesAux bake (i + 1) rest
      match sourceImageData n with
      | none => (restRefs, restNotes)
      | some img =>
          let anns := n.data.annotations.getD []
          if anns.length > 0 then
            (bake img anns :: restRefs,
              ⟨i + 1, n.data.displayId, true⟩ :: restNotes)
          else
            (img :: restRefs, ⟨i + 1, n.data.displayId, false⟩ :: restNotes)

/-- Reference images and correspondence notes produced for a sorted
source-node list (loop starts at index 0). -/
def buildReferences (bake : String → List Annotation → String)
    (sourceNodes : List Node) : List String × List RefNote :=
  buildReferencesAux bake 0 sourceNodes

/-- Final prompt assembly: append the joined notes as a parenthetical block
when at least one note exists. -/
def finalPrompt (compiled : String) (notes : List RefNote) : String :=
  if notes.length > 0 then
    compiled ++ "\n\n(图片引用说明: " ++
      String.intercalate ", " (notes.map renderNote) ++
      "。请根据此对应关系及图片上的数字标记处理提示词。)"
  else compiled

/-- C1 at the failing input: source nodes sorted as [generator with no
generated image (displayId 1), upload node with an image (displayId 2)]. The
skipped first node makes the loop index diverge from the reference-list
position: the single emitted note claims the image is the 2nd one
("第 2 张图片"), but the reference list sent to the generation collaborator
holds exactly one image, at position 1 — the note refers to a position that
does not exist. -/
theorem referenceNotes_skip_mismatch :
    (buildReferences (fun img _ => img)
        [⟨"g1", .GENERATE_IMAGE, ⟨0, 0⟩, { displayId := 1 }, 420, 200⟩,
         ⟨"u1", .IMAGE_UPLOAD, ⟨0, 0⟩, { displayId := 2, imageUrl := some "img2" }, 288, 200⟩]).2 =
        [⟨2, 2, false⟩] ∧
      (buildReferences (fun img _ => img)
          [⟨"g1", .GENERATE_IMAGE, ⟨0, 0⟩, { displayId := 1 }, 420, 200⟩,
           ⟨"u1", .IMAGE_UPLOAD, ⟨0, 0⟩, { displayId := 2, imageUrl := some "img2" }, 288, 200⟩]).1 =
        ["img2"] ∧
      ¬ (2 : Nat) ≤ 1 := by
  refine ⟨by decide, by decide, by decide⟩

end HippoCanvas
